import Mathlib

/-!
Verification development for the Proyecto-API Express/MySQL CRUD service.

The repository consists of two Express routers (`server/routes/usuarios.js`
and two near-identical copies of `server/routes/productos.js`), a MySQL
connection pool (`server/db.js`), configuration loading, and the schema
`server/sql/init.sql`.  Each route handler is a pure function of the
incoming request and of the single database query outcome it observes, so
we embed every route as a Lean function from the request data and a
`Except DbErr _` gateway outcome to the pair (query issued, HTTP response).

Third-party library behaviour (express-validator / validator.js string
checks, JavaScript `Number`, `String.prototype.trim`, `toLowerCase`) is
modelled by small executable Lean functions, clearly marked below; the
route code itself (which chains are attached, their order, their messages,
the handler logic) is translated line by line from the JavaScript sources.
-/

set_option autoImplicit false

namespace ProyectoApi

/-- JSON-style values as they occur in request bodies, responses and SQL
parameter lists.  Numbers are modelled as rationals (the service never
performs float arithmetic: numeric values are only compared to `0` and
echoed back). -/
inductive Val where
  | vStr : String → Val
  | vNum : Rat → Val
  | vNull : Val
  deriving DecidableEq, Repr

/-- One express-validator violation as serialised by `errors.array()`:
the field path and the message (default or set via `withMessage`). -/
structure Violation where
  path : String
  msg : String
  deriving DecidableEq, Repr

/-- Model of express-validator's default error message. -/
def invalidValueMsg : String := "Invalid value"

/-! ### Models of the JavaScript / validator.js string primitives -/

/-- Model of JavaScript whitespace for `String.prototype.trim`. -/
def isJsWs (c : Char) : Bool :=
  c = ' ' || c = '\t' || c = '\n' || c = '\r'

/-- Model of JavaScript `String.prototype.trim` (used by the `.trim()`
sanitizer). -/
def jsTrim (s : String) : String :=
  ⟨((s.data.dropWhile isJsWs).reverse.dropWhile isJsWs).reverse⟩

/-- Model of JavaScript `toLowerCase` restricted to ASCII, used by
`normalizeEmail` (whose default options lowercase the address). -/
def jsLower (s : String) : String :=
  ⟨s.data.map Char.toLower⟩

/-- Model of express-validator's `normalizeEmail()` sanitizer with default
options: the address is lowercased. -/
def normalizeEmail (s : String) : String := jsLower s

/-- Split a character list at every occurrence of `c`. -/
def splitOnChar (c : Char) : List Char → List (List Char)
  | [] => [[]]
  | x :: xs =>
    match splitOnChar c xs, decide (x = c) with
    | r, true => [] :: r
    | [], false => [[x]]
    | y :: ys, false => (x :: y) :: ys

/-- Model of validator.js `isEmail` (simplified): exactly one `@`, a
non-empty local part, and a domain that is non-empty and contains a dot.
The claims under verification do not depend on the finer points of the
library's email grammar. -/
def isEmailLike (s : String) : Bool :=
  match splitOnChar '@' s.data with
  | [loc, dom] => loc.length > 0 && dom.length > 0 && dom.contains '.'
  | _ => false

/-- Decimal digit run to a natural number. -/
def digitsToNat (cs : List Char) : Nat :=
  cs.foldl (fun n c => 10 * n + (c.toNat - 48)) 0

/-- Model of parsing an integer literal string, shared by validator.js
`isInt` and JavaScript `Number` on validated id parameters. -/
def strToIntOpt (s : String) : Option Int :=
  match s.data with
  | [] => none
  | '-' :: rest =>
    if rest.length > 0 && rest.all Char.isDigit then
      some (-(digitsToNat rest : Int))
    else none
  | cs =>
    if cs.all Char.isDigit then some (digitsToNat cs : Int) else none

/-- Model of validator.js `isInt` with option `gt: 0` applied to a raw
path-parameter string. -/
def strIsPosInt (s : String) : Bool :=
  match strToIntOpt s with
  | some n => decide (0 < n)
  | none => false

/-- Model of JavaScript `Number(req.params.id)`; in the handlers it is only
reached after `isInt` validation, so the default is never observable. -/
def jsNumber (s : String) : Int :=
  (strToIntOpt s).getD 0

/-- Decimal-number syntax check for validator.js `isFloat` on strings. -/
def strIsFloat (s : String) : Bool :=
  let t := if s.data.head? = some '-' then ⟨s.data.drop 1⟩ else s
  match splitOnChar '.' t.data with
  | [a] => a.length > 0 && a.all Char.isDigit
  | [a, b] => a.length > 0 && a.all Char.isDigit && b.length > 0 && b.all Char.isDigit
  | _ => false

/-- Model of express-validator `isFloat({ min: 0 })` applied to a body
value (numbers are accepted directly; strings must parse as a non-negative
decimal literal). -/
def valIsFloatMin0 : Val → Bool
  | .vNum q => decide ((0 : Rat) ≤ q)
  | .vStr s => strIsFloat s && !(s.data.head? = some '-')
  | .vNull => false

/-! ### Models of the express-validator chains used by the routers

Each chain produces at most one violation (the first failing validator of
the chain, carrying that validator's message).  `validationResult` then
collects the violations of all chains of the route, in attachment order. -/

/-- Chain `body(f).isString().trim().isLength({ min: 2 }).withMessage(msg)`
on a required field: a missing or non-string value fails `isString` with
the default message; a string shorter than 2 after trimming fails
`isLength` with `msg`. -/
def chainReqStrMin2 (field msg : String) : Option Val → Option Violation
  | some (.vStr s) => if 2 ≤ (jsTrim s).length then none else some ⟨field, msg⟩
  | _ => some ⟨field, invalidValueMsg⟩

/-- Chain `body(f).optional().isString().trim().isLength({ min: 2 })`
(no `withMessage`, as on the update routes). -/
def chainOptStrMin2 (field : String) : Option Val → Option Violation
  | none => none
  | some (.vStr s) => if 2 ≤ (jsTrim s).length then none else some ⟨field, invalidValueMsg⟩
  | some _ => some ⟨field, invalidValueMsg⟩

/-- Chain `body(f).optional().isString().trim()` (productos `descripcion`). -/
def chainOptStr (field : String) : Option Val → Option Violation
  | none => none
  | some (.vStr _) => none
  | some _ => some ⟨field, invalidValueMsg⟩

/-- Chain `body('correo').isEmail().withMessage(msg).normalizeEmail()` on
the required user email. -/
def chainEmail (field msg : String) : Option Val → Option Violation
  | some (.vStr s) => if isEmailLike s then none else some ⟨field, msg⟩
  | _ => some ⟨field, msg⟩

/-- Chain `body('correo').optional().isEmail().normalizeEmail()` (update
route; no `withMessage`). -/
def chainOptEmail (field : String) : Option Val → Option Violation
  | none => none
  | some (.vStr s) => if isEmailLike s then none else some ⟨field, invalidValueMsg⟩
  | some _ => some ⟨field, invalidValueMsg⟩

/-- Chain `body(f).optional().isFloat({ min: 0 })` with message `msg`
(productos `precio`). -/
def chainOptFloatMin0 (field msg : String) : Option Val → Option Violation
  | none => none
  | some v => if valIsFloatMin0 v then none else some ⟨field, msg⟩

/-- Chain `param('id').isInt({ gt: 0 })` with message `msg`. -/
def chainIdPos (msg : String) (s : String) : Option Violation :=
  if strIsPosInt s then none else some ⟨"id", msg⟩

/-! ### Sanitizers (applied in place to `req.body` by the chains) -/

/-- Effect of the `.trim()` sanitizer on a possibly-absent body field. -/
def sanStrTrim : Option Val → Option Val
  | some (.vStr s) => some (.vStr (jsTrim s))
  | v => v

/-- Effect of the `.normalizeEmail()` sanitizer on a possibly-absent body
field. -/
def sanEmail : Option Val → Option Val
  | some (.vStr s) => some (.vStr (normalizeEmail s))
  | v => v

/-! ### Request bodies, rows, queries and responses -/

/-- The declared user body fields; `none` models an absent JSON key. -/
structure UserBody where
  nombre : Option Val
  apellido : Option Val
  correo : Option Val
  deriving DecidableEq, Repr

/-- The declared product body fields. -/
structure ProdBody where
  nombre : Option Val
  descripcion : Option Val
  precio : Option Val
  deriving DecidableEq, Repr

/-- A row of the `usuarios` table as selected by the routers. -/
structure UserRow where
  id : Int
  nombre : String
  apellido : String
  correo : String
  fecha_creacion : Nat
  deriving DecidableEq, Repr

/-- A row of the `productos` table as selected by the routers. -/
structure ProdRow where
  id : Int
  nombre : String
  descripcion : Option String
  precio : Rat
  fecha_creacion : Nat
  deriving DecidableEq, Repr

/-- A driver-level gateway error; `code` models the optional `err.code`
field tested by the handlers (`ER_DUP_ENTRY` for duplicate keys). -/
structure DbErr where
  code : Option String
  deriving DecidableEq, Repr

/-- The MySQL error code for a unique-key violation. -/
def dupKeyCode : String := "ER_DUP_ENTRY"

/-- A parameterized statement handed to the Database Gateway. -/
structure Query where
  sql : String
  params : List Val
  deriving DecidableEq, Repr

/-- JSON response bodies produced by the routers. -/
inductive RBody where
  | errors (es : List Violation)
  | errMsg (m : String)
  | okTrue
  | okId (id : Int)
  | userList (rs : List UserRow)
  | userOne (r : UserRow)
  | prodList (rs : List ProdRow)
  | prodOne (r : ProdRow)
  | createdUser (id : Int) (nombre apellido correo : Val)
  | createdProd (id : Int) (nombre descripcion precio : Val)
  deriving DecidableEq, Repr

/-- An HTTP response: status code plus JSON body. -/
structure Response where
  status : Nat
  body : RBody
  deriving DecidableEq, Repr

/-- Model of `Array.prototype.join(', ')` on the dynamic field-clause list. -/
def joinComma : List String → String
  | [] => ""
  | [s] => s
  | s :: rest => s ++ ", " ++ joinComma rest

/-! ### The usuarios router (`server/routes/usuarios.js`, lines 1-146)

Each route is a function of the request data and of the gateway outcome of
the single query the handler may issue.  The first component of the result
is the query handed to the gateway (`none` when the handler returns before
querying), the second the HTTP response. -/

namespace Usuarios

/-- Route `GET /usuarios`. -/
def getAll (db : Except DbErr (List UserRow)) : Option Query × Response :=
  (some ⟨"SELECT id, nombre, apellido, correo, fecha_creacion FROM usuarios ORDER BY id DESC", []⟩,
   match db with
   | .ok rows => ⟨200, .userList rows⟩
   | .error _ => ⟨500, .errMsg "Error al obtener usuarios"⟩)

/-- Violations collected by `validationResult` on `GET /usuarios/:id`. -/
def getByIdViolations (idParam : String) : List Violation :=
  (chainIdPos "id debe ser entero positivo" idParam).toList

/-- Route `GET /usuarios/:id`. -/
def getById (idParam : String) (db : Except DbErr (List UserRow)) :
    Option Query × Response :=
  let errs := getByIdViolations idParam
  if errs.isEmpty then
    let id := jsNumber idParam
    (some ⟨"SELECT id, nombre, apellido, correo, fecha_creacion FROM usuarios WHERE id = ?",
           [.vNum (id : Int)]⟩,
     match db with
     | .ok [] => ⟨404, .errMsg "Usuario no encontrado"⟩
     | .ok (r :: _) => ⟨200, .userOne r⟩
     | .error _ => ⟨500, .errMsg "Error al obtener usuario"⟩)
  else (none, ⟨400, .errors errs⟩)

/-- Violations collected on `POST /usuarios` (three chains, in order). -/
def postViolations (b : UserBody) : List Violation :=
  (chainReqStrMin2 "nombre" "nombre inválido" b.nombre).toList ++
  (chainReqStrMin2 "apellido" "apellido inválido" b.apellido).toList ++
  (chainEmail "correo" "correo inválido" b.correo).toList

/-- Sanitizers of the `POST /usuarios` chains applied to `req.body`. -/
def sanitizePost (b : UserBody) : UserBody :=
  ⟨sanStrTrim b.nombre, sanStrTrim b.apellido, sanEmail b.correo⟩

/-- Route `POST /usuarios`.  `db` is the outcome of the INSERT: the generated
`insertId` on success, or a driver error. -/
def post (b : UserBody) (db : Except DbErr Int) : Option Query × Response :=
  let errs := postViolations b
  if errs.isEmpty then
    let b' := sanitizePost b
    let nombre := b'.nombre.getD .vNull
    let apellido := b'.apellido.getD .vNull
    let correo := b'.correo.getD .vNull
    (some ⟨"INSERT INTO usuarios (nombre, apellido, correo) VALUES (?, ?, ?)",
           [nombre, apellido, correo]⟩,
     match db with
     | .ok insertId => ⟨201, .createdUser insertId nombre apellido correo⟩
     | .error e =>
       if e.code = some dupKeyCode then ⟨409, .errMsg "El correo ya está registrado"⟩
       else ⟨500, .errMsg "Error al crear usuario"⟩)
  else (none, ⟨400, .errors errs⟩)

/-- Violations collected on `PUT /usuarios/:id` (four chains, in order). -/
def putViolations (idParam : String) (b : UserBody) : List Violation :=
  (chainIdPos "id inválido" idParam).toList ++
  (chainOptStrMin2 "nombre" b.nombre).toList ++
  (chainOptStrMin2 "apellido" b.apellido).toList ++
  (chainOptEmail "correo" b.correo).toList

/-- Sanitizers of the `PUT /usuarios/:id` chains applied to `req.body`. -/
def sanitizePut (b : UserBody) : UserBody :=
  ⟨sanStrTrim b.nombre, sanStrTrim b.apellido, sanEmail b.correo⟩

/-- Dynamic clause list of the user update builder (lines 103-107). -/
def updateFields (b : UserBody) : List String :=
  (if b.nombre.isSome then ["nombre = ?"] else []) ++
  (if b.apellido.isSome then ["apellido = ?"] else []) ++
  (if b.correo.isSome then ["correo = ?"] else [])

/-- Dynamic value list of the user update builder (lines 103-107). -/
def updateValues (b : UserBody) : List Val :=
  b.nombre.toList ++ b.apellido.toList ++ b.correo.toList

/-- The SQL text assembled for the dynamic update. -/
def updateSql (fields : List String) : String :=
  "UPDATE usuarios SET " ++ joinComma fields ++ " WHERE id = ?"

/-- Route `PUT /usuarios/:id`.  `db` is the affected-row count of the UPDATE, or
a driver error. -/
def put (idParam : String) (b : UserBody) (db : Except DbErr Nat) :
    Option Query × Response :=
  let errs := putViolations idParam b
  if errs.isEmpty then
    let id := jsNumber idParam
    let b' := sanitizePut b
    let fields := updateFields b'
    let values := updateValues b'
    if fields.isEmpty then (none, ⟨400, .errMsg "No hay campos para actualizar"⟩)
    else
      (some ⟨updateSql fields, values ++ [.vNum (id : Int)]⟩,
       match db with
       | .ok 0 => ⟨404, .errMsg "Usuario no encontrado"⟩
       | .ok _ => ⟨200, .okId id⟩
       | .error e =>
         if e.code = some dupKeyCode then ⟨409, .errMsg "El correo ya está registrado"⟩
         else ⟨500, .errMsg "Error al actualizar usuario"⟩)
  else (none, ⟨400, .errors errs⟩)

/-- Violations collected on `DELETE /usuarios/:id`. -/
def delViolations (idParam : String) : List Violation :=
  (chainIdPos "id inválido" idParam).toList

/-- Route `DELETE /usuarios/:id`.  `db` is the affected-row count of the DELETE. -/
def del (idParam : String) (db : Except DbErr Nat) : Option Query × Response :=
  let errs := delViolations idParam
  if errs.isEmpty then
    let id := jsNumber idParam
    (some ⟨"DELETE FROM usuarios WHERE id = ?", [.vNum (id : Int)]⟩,
     match db with
     | .ok 0 => ⟨404, .errMsg "Usuario no encontrado"⟩
     | .ok _ => ⟨200, .okTrue⟩
     | .error _ => ⟨500, .errMsg "Error al eliminar usuario"⟩)
  else (none, ⟨400, .errors errs⟩)

end Usuarios

/-! ### The productos router, standalone copy (`server/routes/productos.js`) -/

namespace Productos

/-- Route `GET /productos`. -/
def getAll (db : Except DbErr (List ProdRow)) : Option Query × Response :=
  (some ⟨"SELECT id, nombre, descripcion, precio, fecha_creacion FROM productos ORDER BY id DESC", []⟩,
   match db with
   | .ok rows => ⟨200, .prodList rows⟩
   | .error _ => ⟨500, .errMsg "Error al obtener productos"⟩)

/-- Violations collected on `GET /productos/:id`. -/
def getByIdViolations (idParam : String) : List Violation :=
  (chainIdPos "id inválido" idParam).toList

/-- Route `GET /productos/:id`. -/
def getById (idParam : String) (db : Except DbErr (List ProdRow)) :
    Option Query × Response :=
  let errs := getByIdViolations idParam
  if errs.isEmpty then
    let id := jsNumber idParam
    (some ⟨"SELECT id, nombre, descripcion, precio, fecha_creacion FROM productos WHERE id = ?",
           [.vNum (id : Int)]⟩,
     match db with
     | .ok [] => ⟨404, .errMsg "Producto no encontrado"⟩
     | .ok (r :: _) => ⟨200, .prodOne r⟩
     | .error _ => ⟨500, .errMsg "Error al obtener producto"⟩)
  else (none, ⟨400, .errors errs⟩)

/-- Violations collected on `POST /productos` (three chains, in order). -/
def postViolations (b : ProdBody) : List Violation :=
  (chainReqStrMin2 "nombre" "nombre inválido" b.nombre).toList ++
  (chainOptStr "descripcion" b.descripcion).toList ++
  (chainOptFloatMin0 "precio" "precio inválido" b.precio).toList

/-- Sanitizers of the `POST /productos` chains applied to `req.body`. -/
def sanitizePost (b : ProdBody) : ProdBody :=
  ⟨sanStrTrim b.nombre, sanStrTrim b.descripcion, b.precio⟩

/-- Route `POST /productos`.  The destructuring defaults of the handler
(`descripcion = null`, `precio = 0.0`) apply to absent fields. -/
def post (b : ProdBody) (db : Except DbErr Int) : Option Query × Response :=
  let errs := postViolations b
  if errs.isEmpty then
    let b' := sanitizePost b
    let nombre := b'.nombre.getD .vNull
    let descripcion := b'.descripcion.getD .vNull
    let precio := b'.precio.getD (.vNum 0)
    (some ⟨"INSERT INTO productos (nombre, descripcion, precio) VALUES (?, ?, ?)",
           [nombre, descripcion, precio]⟩,
     match db with
     | .ok insertId => ⟨201, .createdProd insertId nombre descripcion precio⟩
     | .error _ => ⟨500, .errMsg "Error al crear producto"⟩)
  else (none, ⟨400, .errors errs⟩)

/-- Violations collected on `PUT /productos/:id` (four chains, in order). -/
def putViolations (idParam : String) (b : ProdBody) : List Violation :=
  (chainIdPos "id inválido" idParam).toList ++
  (chainOptStrMin2 "nombre" b.nombre).toList ++
  (chainOptStr "descripcion" b.descripcion).toList ++
  (chainOptFloatMin0 "precio" invalidValueMsg b.precio).toList

/-- Sanitizers of the `PUT /productos/:id` chains applied to `req.body`. -/
def sanitizePut (b : ProdBody) : ProdBody :=
  ⟨sanStrTrim b.nombre, sanStrTrim b.descripcion, b.precio⟩

/-- Dynamic clause list of the product update builder (lines 97-101). -/
def updateFields (b : ProdBody) : List String :=
  (if b.nombre.isSome then ["nombre = ?"] else []) ++
  (if b.descripcion.isSome then ["descripcion = ?"] else []) ++
  (if b.precio.isSome then ["precio = ?"] else [])

/-- Dynamic value list of the product update builder (lines 97-101). -/
def updateValues (b : ProdBody) : List Val :=
  b.nombre.toList ++ b.descripcion.toList ++ b.precio.toList

/-- The SQL text assembled for the dynamic update. -/
def updateSql (fields : List String) : String :=
  "UPDATE productos SET " ++ joinComma fields ++ " WHERE id = ?"

/-- Route `PUT /productos/:id` (standalone copy: `id` is converted with `Number`
before being pushed into the value list). -/
def put (idParam : String) (b : ProdBody) (db : Except DbErr Nat) :
    Option Query × Response :=
  let errs := putViolations idParam b
  if errs.isEmpty then
    let id := jsNumber idParam
    let b' := sanitizePut b
    let fields := updateFields b'
    let values := updateValues b'
    if fields.isEmpty then (none, ⟨400, .errMsg "No hay campos para actualizar"⟩)
    else
      (some ⟨updateSql fields, values ++ [.vNum (id : Int)]⟩,
       match db with
       | .ok 0 => ⟨404, .errMsg "Producto no encontrado"⟩
       | .ok _ => ⟨200, .okId id⟩
       | .error _ => ⟨500, .errMsg "Error al actualizar producto"⟩)
  else (none, ⟨400, .errors errs⟩)

/-- Violations collected on `DELETE /productos/:id`. -/
def delViolations (idParam : String) : List Violation :=
  (chainIdPos "id inválido" idParam).toList

/-- Route `DELETE /productos/:id`. -/
def del (idParam : String) (db : Except DbErr Nat) : Option Query × Response :=
  let errs := delViolations idParam
  if errs.isEmpty then
    let id := jsNumber idParam
    (some ⟨"DELETE FROM productos WHERE id = ?", [.vNum (id : Int)]⟩,
     match db with
     | .ok 0 => ⟨404, .errMsg "Producto no encontrado"⟩
     | .ok _ => ⟨200, .okTrue⟩
     | .error _ => ⟨500, .errMsg "Error al eliminar producto"⟩)
  else (none, ⟨400, .errors errs⟩)

end Productos

/-! ### The productos router, second copy (appended in
`server/routes/usuarios.js`, lines 147-250).  It drifts from the
standalone copy in three places: `GET /:id` and `DELETE /:id` pass the raw
id string to the query; `PUT /:id` has no `withMessage` on the id chain,
keeps `id` as the raw string in the value list, and converts it with
`Number` only in the response body. -/

namespace Productos2

/-- Route `GET /productos` (second copy; textually identical handler). -/
def getAll (db : Except DbErr (List ProdRow)) : Option Query × Response :=
  (some ⟨"SELECT id, nombre, descripcion, precio, fecha_creacion FROM productos ORDER BY id DESC", []⟩,
   match db with
   | .ok rows => ⟨200, .prodList rows⟩
   | .error _ => ⟨500, .errMsg "Error al obtener productos"⟩)

/-- Violations collected on `GET /productos/:id` (second copy). -/
def getByIdViolations (idParam : String) : List Violation :=
  (chainIdPos "id inválido" idParam).toList

/-- Route `GET /productos/:id` (second copy: the raw id string is the query
parameter). -/
def getById (idParam : String) (db : Except DbErr (List ProdRow)) :
    Option Query × Response :=
  let errs := getByIdViolations idParam
  if errs.isEmpty then
    (some ⟨"SELECT id, nombre, descripcion, precio, fecha_creacion FROM productos WHERE id = ?",
           [.vStr idParam]⟩,
     match db with
     | .ok [] => ⟨404, .errMsg "Producto no encontrado"⟩
     | .ok (r :: _) => ⟨200, .prodOne r⟩
     | .error _ => ⟨500, .errMsg "Error al obtener producto"⟩)
  else (none, ⟨400, .errors errs⟩)

/-- Violations collected on `POST /productos` (second copy; same chains). -/
def postViolations (b : ProdBody) : List Violation :=
  (chainReqStrMin2 "nombre" "nombre inválido" b.nombre).toList ++
  (chainOptStr "descripcion" b.descripcion).toList ++
  (chainOptFloatMin0 "precio" "precio inválido" b.precio).toList

/-- Sanitizers of the second copy's `POST /productos` chains. -/
def sanitizePost (b : ProdBody) : ProdBody :=
  ⟨sanStrTrim b.nombre, sanStrTrim b.descripcion, b.precio⟩

/-- Route `POST /productos` (second copy; textually identical handler). -/
def post (b : ProdBody) (db : Except DbErr Int) : Option Query × Response :=
  let errs := postViolations b
  if errs.isEmpty then
    let b' := sanitizePost b
    let nombre := b'.nombre.getD .vNull
    let descripcion := b'.descripcion.getD .vNull
    let precio := b'.precio.getD (.vNum 0)
    (some ⟨"INSERT INTO productos (nombre, descripcion, precio) VALUES (?, ?, ?)",
           [nombre, descripcion, precio]⟩,
     match db with
     | .ok insertId => ⟨201, .createdProd insertId nombre descripcion precio⟩
     | .error _ => ⟨500, .errMsg "Error al crear producto"⟩)
  else (none, ⟨400, .errors errs⟩)

/-- Violations collected on `PUT /productos/:id` (second copy: the id
chain has no `withMessage`, so a failing id yields the default message). -/
def putViolations (idParam : String) (b : ProdBody) : List Violation :=
  (chainIdPos invalidValueMsg idParam).toList ++
  (chainOptStrMin2 "nombre" b.nombre).toList ++
  (chainOptStr "descripcion" b.descripcion).toList ++
  (chainOptFloatMin0 "precio" invalidValueMsg b.precio).toList

/-- Sanitizers of the second copy's `PUT /productos/:id` chains. -/
def sanitizePut (b : ProdBody) : ProdBody :=
  ⟨sanStrTrim b.nombre, sanStrTrim b.descripcion, b.precio⟩

/-- Dynamic clause list of the second copy's update builder (lines
214-218 of `server/routes/usuarios.js`). -/
def updateFields (b : ProdBody) : List String :=
  (if b.nombre.isSome then ["nombre = ?"] else []) ++
  (if b.descripcion.isSome then ["descripcion = ?"] else []) ++
  (if b.precio.isSome then ["precio = ?"] else [])

/-- Dynamic value list of the second copy's update builder. -/
def updateValues (b : ProdBody) : List Val :=
  b.nombre.toList ++ b.descripcion.toList ++ b.precio.toList

/-- The SQL text assembled by the second copy's update builder. -/
def updateSql (fields : List String) : String :=
  "UPDATE productos SET " ++ joinComma fields ++ " WHERE id = ?"

/-- Route `PUT /productos/:id` (second copy: keeps `id` as the raw string in the
value list and applies `Number` only in the response body). -/
def put (idParam : String) (b : ProdBody) (db : Except DbErr Nat) :
    Option Query × Response :=
  let errs := putViolations idParam b
  if errs.isEmpty then
    let b' := sanitizePut b
    let fields := updateFields b'
    let values := updateValues b'
    if fields.isEmpty then (none, ⟨400, .errMsg "No hay campos para actualizar"⟩)
    else
      (some ⟨updateSql fields, values ++ [.vStr idParam]⟩,
       match db with
       | .ok 0 => ⟨404, .errMsg "Producto no encontrado"⟩
       | .ok _ => ⟨200, .okId (jsNumber idParam)⟩
       | .error _ => ⟨500, .errMsg "Error al actualizar producto"⟩)
  else (none, ⟨400, .errors errs⟩)

/-- Violations collected on `DELETE /productos/:id` (second copy). -/
def delViolations (idParam : String) : List Violation :=
  (chainIdPos "id inválido" idParam).toList

/-- Route `DELETE /productos/:id` (second copy: raw id string as parameter). -/
def del (idParam : String) (db : Except DbErr Nat) : Option Query × Response :=
  let errs := delViolations idParam
  if errs.isEmpty then
    (some ⟨"DELETE FROM productos WHERE id = ?", [.vStr idParam]⟩,
     match db with
     | .ok 0 => ⟨404, .errMsg "Producto no encontrado"⟩
     | .ok _ => ⟨200, .okTrue⟩
     | .error _ => ⟨500, .errMsg "Error al eliminar producto"⟩)
  else (none, ⟨400, .errors errs⟩)

end Productos2

/-! ### Gateway semantics of the usuarios INSERT, from `server/sql/init.sql`

The schema declares `correo VARCHAR(150) NOT NULL UNIQUE` and
`id INT AUTO_INCREMENT PRIMARY KEY`, so the gateway raises `ER_DUP_ENTRY`
when an insert reuses an existing `correo`, and otherwise assigns the next
auto-increment id. -/

/-- State of the `usuarios` table: its rows and the next auto-increment
id. -/
structure UsersState where
  rows : List UserRow
  nextId : Int
  deriving DecidableEq, Repr

/-- Gateway execution of
`INSERT INTO usuarios (nombre, apellido, correo) VALUES (?, ?, ?)` against
a table state: a duplicate `correo` violates the UNIQUE constraint and
surfaces `ER_DUP_ENTRY`; otherwise the row is stored with the generated id
and `fecha_creacion` timestamp `now`. -/
def insertUsuarioDb (s : UsersState) (nombre apellido correo : String)
    (now : Nat) : Except DbErr (Int × UsersState) :=
  if s.rows.any (fun r => r.correo = correo) then
    .error ⟨some dupKeyCode⟩
  else
    .ok (s.nextId,
         ⟨s.rows ++ [⟨s.nextId, nombre, apellido, correo, now⟩], s.nextId + 1⟩)

/-- Read a string out of a `Val` (the create handler only reaches the
gateway with validated, hence string, field values). -/
def valAsStr : Val → String
  | .vStr s => s
  | _ => ""

/-- Route `POST /usuarios` composed with the gateway semantics of the INSERT:
runs the route against the table state and returns the response together
with the successor state. -/
def runPostUsuario (s : UsersState) (b : UserBody) (now : Nat) :
    Response × UsersState :=
  if (Usuarios.postViolations b).isEmpty then
    let b' := Usuarios.sanitizePost b
    match insertUsuarioDb s (valAsStr (b'.nombre.getD .vNull))
        (valAsStr (b'.apellido.getD .vNull))
        (valAsStr (b'.correo.getD .vNull)) now with
    | .ok (newId, s') => ((Usuarios.post b (.ok newId)).2, s')
    | .error e => ((Usuarios.post b (.error e)).2, s)
  else (⟨400, .errors (Usuarios.postViolations b)⟩, s)

/-! ### Helper lemmas -/

theorem sanStrTrim_isSome (o : Option Val) : (sanStrTrim o).isSome = o.isSome := by
  cases o with
  | none => rfl
  | some v => cases v <;> rfl

theorem sanEmail_isSome (o : Option Val) : (sanEmail o).isSome = o.isSome := by
  cases o with
  | none => rfl
  | some v => cases v <;> rfl

theorem chainIdPos_of_pos (m i : String) (h : strIsPosInt i = true) :
    chainIdPos m i = none := by
  simp [chainIdPos, h]

theorem chainIdPos_of_neg (m i : String) (h : strIsPosInt i = false) :
    chainIdPos m i = some ⟨"id", m⟩ := by
  simp [chainIdPos, h]

/-- If the user update route hands a query to the gateway, then validation
passed, the dynamic clause list is non-empty, and the query is exactly the
one assembled by the builder, with the id appended last. -/
theorem usuarios_put_issued_cases (i : String) (b : UserBody)
    (db : Except DbErr Nat) (q : Query) (h : (Usuarios.put i b db).1 = some q) :
    Usuarios.putViolations i b = [] ∧
    Usuarios.updateFields (Usuarios.sanitizePut b) ≠ [] ∧
    q = ⟨Usuarios.updateSql (Usuarios.updateFields (Usuarios.sanitizePut b)),
         Usuarios.updateValues (Usuarios.sanitizePut b) ++ [.vNum (jsNumber i : Int)]⟩ := by
  simp only [Usuarios.put] at h
  by_cases h1 : (Usuarios.putViolations i b).isEmpty = true
  · rw [if_pos h1] at h
    by_cases h2 : (Usuarios.updateFields (Usuarios.sanitizePut b)).isEmpty = true
    · rw [if_pos h2] at h; simp at h
    · rw [if_neg h2] at h
      simp only [Option.some.injEq] at h
      exact ⟨List.isEmpty_iff.mp h1, by simpa [List.isEmpty_iff] using h2, h.symm⟩
  · rw [if_neg h1] at h; simp at h

/-- Gateway-issuance characterization for the standalone product update
route. -/
theorem productos_put_issued_cases (i : String) (b : ProdBody)
    (db : Except DbErr Nat) (q : Query) (h : (Productos.put i b db).1 = some q) :
    Productos.putViolations i b = [] ∧
    Productos.updateFields (Productos.sanitizePut b) ≠ [] ∧
    q = ⟨Productos.updateSql (Productos.updateFields (Productos.sanitizePut b)),
         Productos.updateValues (Productos.sanitizePut b) ++ [.vNum (jsNumber i : Int)]⟩ := by
  simp only [Productos.put] at h
  by_cases h1 : (Productos.putViolations i b).isEmpty = true
  · rw [if_pos h1] at h
    by_cases h2 : (Productos.updateFields (Productos.sanitizePut b)).isEmpty = true
    · rw [if_pos h2] at h; simp at h
    · rw [if_neg h2] at h
      simp only [Option.some.injEq] at h
      exact ⟨List.isEmpty_iff.mp h1, by simpa [List.isEmpty_iff] using h2, h.symm⟩
  · rw [if_neg h1] at h; simp at h

/-- Gateway-issuance characterization for the second product update
route (raw id string appended last). -/
theorem productos2_put_issued_cases (i : String) (b : ProdBody)
    (db : Except DbErr Nat) (q : Query) (h : (Productos2.put i b db).1 = some q) :
    Productos2.putViolations i b = [] ∧
    Productos2.updateFields (Productos2.sanitizePut b) ≠ [] ∧
    q = ⟨Productos2.updateSql (Productos2.updateFields (Productos2.sanitizePut b)),
         Productos2.updateValues (Productos2.sanitizePut b) ++ [.vStr i]⟩ := by
  simp only [Productos2.put] at h
  by_cases h1 : (Productos2.putViolations i b).isEmpty = true
  · rw [if_pos h1] at h
    by_cases h2 : (Productos2.updateFields (Productos2.sanitizePut b)).isEmpty = true
    · rw [if_pos h2] at h; simp at h
    · rw [if_neg h2] at h
      simp only [Option.some.injEq] at h
      exact ⟨List.isEmpty_iff.mp h1, by simpa [List.isEmpty_iff] using h2, h.symm⟩
  · rw [if_neg h1] at h; simp at h

/-- Sanitizers do not change which user body fields are present. -/
theorem usuarios_updateFields_sanitize (b : UserBody) :
    Usuarios.updateFields (Usuarios.sanitizePut b) = Usuarios.updateFields b := by
  simp [Usuarios.updateFields, Usuarios.sanitizePut, sanStrTrim_isSome, sanEmail_isSome]

/-- Sanitizers do not change which product body fields are present. -/
theorem productos_updateFields_sanitize (b : ProdBody) :
    Productos.updateFields (Productos.sanitizePut b) = Productos.updateFields b := by
  simp [Productos.updateFields, Productos.sanitizePut, sanStrTrim_isSome]

/-- Sanitizers do not change which product body fields are present
(second copy). -/
theorem productos2_updateFields_sanitize (b : ProdBody) :
    Productos2.updateFields (Productos2.sanitizePut b) = Productos2.updateFields b := by
  simp [Productos2.updateFields, Productos2.sanitizePut, sanStrTrim_isSome]

/-! ### Claims -/

/-- C2: on every validated route (get-by-id, create, update, delete, on
either resource), if at least one declared rule fails then the response is
HTTP 400 carrying the full accumulated violation list of all chains, no
query is issued to the gateway, and the handler body is never reached. -/
theorem claim_C2_validation_shortcircuit :
    (∀ i db, Usuarios.getByIdViolations i ≠ [] →
       Usuarios.getById i db = (none, ⟨400, .errors (Usuarios.getByIdViolations i)⟩)) ∧
    (∀ b db, Usuarios.postViolations b ≠ [] →
       Usuarios.post b db = (none, ⟨400, .errors (Usuarios.postViolations b)⟩)) ∧
    (∀ i b db, Usuarios.putViolations i b ≠ [] →
       Usuarios.put i b db = (none, ⟨400, .errors (Usuarios.putViolations i b)⟩)) ∧
    (∀ i db, Usuarios.delViolations i ≠ [] →
       Usuarios.del i db = (none, ⟨400, .errors (Usuarios.delViolations i)⟩)) ∧
    (∀ i db, Productos.getByIdViolations i ≠ [] →
       Productos.getById i db = (none, ⟨400, .errors (Productos.getByIdViolations i)⟩)) ∧
    (∀ b db, Productos.postViolations b ≠ [] →
       Productos.post b db = (none, ⟨400, .errors (Productos.postViolations b)⟩)) ∧
    (∀ i b db, Productos.putViolations i b ≠ [] →
       Productos.put i b db = (none, ⟨400, .errors (Productos.putViolations i b)⟩)) ∧
    (∀ i db, Productos.delViolations i ≠ [] →
       Productos.del i db = (none, ⟨400, .errors (Productos.delViolations i)⟩)) := by
  refine ⟨?_, ?_, ?_, ?_, ?_, ?_, ?_, ?_⟩
  · intro i db h
    simp only [Usuarios.getById]
    rw [if_neg (by simpa [List.isEmpty_iff] using h)]
  · intro b db h
    simp only [Usuarios.post]
    rw [if_neg (by simpa [List.isEmpty_iff] using h)]
  · intro i b db h
    simp only [Usuarios.put]
    rw [if_neg (by simpa [List.isEmpty_iff] using h)]
  · intro i db h
    simp only [Usuarios.del]
    rw [if_neg (by simpa [List.isEmpty_iff] using h)]
  · intro i db h
    simp only [Productos.getById]
    rw [if_neg (by simpa [List.isEmpty_iff] using h)]
  · intro b db h
    simp only [Productos.post]
    rw [if_neg (by simpa [List.isEmpty_iff] using h)]
  · intro i b db h
    simp only [Productos.put]
    rw [if_neg (by simpa [List.isEmpty_iff] using h)]
  · intro i db h
    simp only [Productos.del]
    rw [if_neg (by simpa [List.isEmpty_iff] using h)]

/-- C2 witness: a create with a one-character `nombre`, a missing
`apellido` and a malformed `correo` is answered 400 with all three
violations accumulated and no query issued; a get with the non-positive id
`"0"` is answered 400 without a query. -/
theorem claim_C2_witness :
    (Usuarios.post ⟨some (.vStr "A"), none, some (.vStr "bad")⟩ (.ok 1) =
      (none, ⟨400, .errors [⟨"nombre", "nombre inválido"⟩, ⟨"apellido", "Invalid value"⟩,
                            ⟨"correo", "correo inválido"⟩]⟩)) ∧
    (Usuarios.getById "0" (.ok []) =
      (none, ⟨400, .errors [⟨"id", "id debe ser entero positivo"⟩]⟩)) := by
  constructor
  · exact (claim_C2_validation_shortcircuit.2.1
      ⟨some (.vStr "A"), none, some (.vStr "bad")⟩ (.ok 1) (by decide)).trans (by decide)
  · exact (claim_C2_validation_shortcircuit.1 "0" (.ok []) (by decide)).trans (by decide)

/-- C5: on a get-by-id request with a valid positive-integer id, zero
returned rows map to HTTP 404 with an `{error: string}` body, a returned
row maps to HTTP 200 with that single entity, and a gateway error maps to
HTTP 500 — on both resources. -/
theorem claim_C5_get_by_id :
    (∀ i, strIsPosInt i = true →
      ((Usuarios.getById i (.ok [])).2 = ⟨404, .errMsg "Usuario no encontrado"⟩) ∧
      (∀ r rest, (Usuarios.getById i (.ok (r :: rest))).2 = ⟨200, .userOne r⟩) ∧
      (∀ e, (Usuarios.getById i (.error e)).2 = ⟨500, .errMsg "Error al obtener usuario"⟩)) ∧
    (∀ i, strIsPosInt i = true →
      ((Productos.getById i (.ok [])).2 = ⟨404, .errMsg "Producto no encontrado"⟩) ∧
      (∀ r rest, (Productos.getById i (.ok (r :: rest))).2 = ⟨200, .prodOne r⟩) ∧
      (∀ e, (Productos.getById i (.error e)).2 = ⟨500, .errMsg "Error al obtener producto"⟩)) := by
  constructor
  · intro i h
    have hv : Usuarios.getByIdViolations i = [] := by
      simp [Usuarios.getByIdViolations, chainIdPos_of_pos _ _ h]
    refine ⟨?_, ?_, ?_⟩ <;> simp [Usuarios.getById, hv]
  · intro i h
    have hv : Productos.getByIdViolations i = [] := by
      simp [Productos.getByIdViolations, chainIdPos_of_pos _ _ h]
    refine ⟨?_, ?_, ?_⟩ <;> simp [Productos.getById, hv]

/-- C5 witness: at the valid id `"7"`, zero rows yield 404, the returned
row is echoed with 200, and a gateway error yields 500. -/
theorem claim_C5_witness :
    ((Usuarios.getById "7" (.ok [])).2 = ⟨404, .errMsg "Usuario no encontrado"⟩) ∧
    ((Usuarios.getById "7" (.ok [⟨7, "Ana", "Li", "ana@example.com", 0⟩])).2 =
      ⟨200, .userOne ⟨7, "Ana", "Li", "ana@example.com", 0⟩⟩) ∧
    ((Productos.getById "7" (.error ⟨none⟩)).2 = ⟨500, .errMsg "Error al obtener producto"⟩) :=
  ⟨(claim_C5_get_by_id.1 "7" (by decide)).1,
   (claim_C5_get_by_id.1 "7" (by decide)).2.1 ⟨7, "Ana", "Li", "ana@example.com", 0⟩ [],
   (claim_C5_get_by_id.2 "7" (by decide)).2.2 ⟨none⟩⟩

/-- C6: the list routes always hand the gateway the SELECT ordered by id
descending; a successful outcome is answered HTTP 200 echoing exactly the
returned row list (an empty table yields the empty list, never null), and
HTTP 500 occurs exactly when the gateway errors — on both resources. -/
theorem claim_C6_list :
    (∀ db, (Usuarios.getAll db).1 =
        some ⟨"SELECT id, nombre, apellido, correo, fecha_creacion FROM usuarios ORDER BY id DESC", []⟩ ∧
      (∀ rows, db = .ok rows → (Usuarios.getAll db).2 = ⟨200, .userList rows⟩) ∧
      ((Usuarios.getAll db).2.status = 500 ↔ ∃ e, db = .error e)) ∧
    (∀ db, (Productos.getAll db).1 =
        some ⟨"SELECT id, nombre, descripcion, precio, fecha_creacion FROM productos ORDER BY id DESC", []⟩ ∧
      (∀ rows, db = .ok rows → (Productos.getAll db).2 = ⟨200, .prodList rows⟩) ∧
      ((Productos.getAll db).2.status = 500 ↔ ∃ e, db = .error e)) := by
  constructor
  · intro db
    refine ⟨rfl, ?_, ?_⟩ <;> cases db <;> simp [Usuarios.getAll]
  · intro db
    refine ⟨rfl, ?_, ?_⟩ <;> cases db <;> simp [Productos.getAll]

/-- C6 witness: an empty table is answered 200 with the empty (non-null)
array, and a gateway error is answered 500. -/
theorem claim_C6_witness :
    ((Usuarios.getAll (.ok [])).2 = ⟨200, .userList []⟩) ∧
    ((Productos.getAll (.error ⟨none⟩)).2.status = 500) :=
  ⟨(claim_C6_list.1 (.ok [])).2.1 [] rfl,
   ((claim_C6_list.2 (.error ⟨none⟩)).2.2).mpr ⟨⟨none⟩, rfl⟩⟩

/-- Which clauses the user update builder emits, per body field. -/
theorem usuarios_mem_updateFields (b : UserBody) :
    (("nombre = ?" ∈ Usuarios.updateFields b) ↔ b.nombre.isSome = true) ∧
    (("apellido = ?" ∈ Usuarios.updateFields b) ↔ b.apellido.isSome = true) ∧
    (("correo = ?" ∈ Usuarios.updateFields b) ↔ b.correo.isSome = true) := by
  rcases b with ⟨n, a, c⟩
  cases n <;> cases a <;> cases c <;> simp [Usuarios.updateFields]

/-- Which clauses the product update builder emits, per body field. -/
theorem productos_mem_updateFields (b : ProdBody) :
    (("nombre = ?" ∈ Productos.updateFields b) ↔ b.nombre.isSome = true) ∧
    (("descripcion = ?" ∈ Productos.updateFields b) ↔ b.descripcion.isSome = true) ∧
    (("precio = ?" ∈ Productos.updateFields b) ↔ b.precio.isSome = true) := by
  rcases b with ⟨n, d, p⟩
  cases n <;> cases d <;> cases p <;> simp [Productos.updateFields]

/-- C4: whenever an update or delete with a valid id reaches the gateway
and the gateway succeeds, the handler answers 404 exactly when zero rows
were affected, and otherwise 200 with `{ok: true, id}` (update) or
`{ok: true}` (delete) — on both resources. -/
theorem claim_C4_affected_rows :
    (∀ i b n q, (Usuarios.put i b (.ok n)).1 = some q →
       (Usuarios.put i b (.ok n)).2 =
         if n = 0 then ⟨404, .errMsg "Usuario no encontrado"⟩
         else ⟨200, .okId (jsNumber i)⟩) ∧
    (∀ i n, strIsPosInt i = true →
       (Usuarios.del i (.ok n)).2 =
         if n = 0 then ⟨404, .errMsg "Usuario no encontrado"⟩ else ⟨200, .okTrue⟩) ∧
    (∀ i b n q, (Productos.put i b (.ok n)).1 = some q →
       (Productos.put i b (.ok n)).2 =
         if n = 0 then ⟨404, .errMsg "Producto no encontrado"⟩
         else ⟨200, .okId (jsNumber i)⟩) ∧
    (∀ i n, strIsPosInt i = true →
       (Productos.del i (.ok n)).2 =
         if n = 0 then ⟨404, .errMsg "Producto no encontrado"⟩ else ⟨200, .okTrue⟩) := by
  refine ⟨?_, ?_, ?_, ?_⟩
  · intro i b n q h
    obtain ⟨h1, h2, -⟩ := usuarios_put_issued_cases i b (.ok n) q h
    simp only [Usuarios.put]
    rw [if_pos (by simp [h1])]
    rw [if_neg (by simpa [List.isEmpty_iff] using h2)]
    cases n <;> simp
  · intro i n h
    have hv : Usuarios.delViolations i = [] := by
      simp [Usuarios.delViolations, chainIdPos_of_pos _ _ h]
    cases n <;> simp [Usuarios.del, hv]
  · intro i b n q h
    obtain ⟨h1, h2, -⟩ := productos_put_issued_cases i b (.ok n) q h
    simp only [Productos.put]
    rw [if_pos (by simp [h1])]
    rw [if_neg (by simpa [List.isEmpty_iff] using h2)]
    cases n <;> simp
  · intro i n h
    have hv : Productos.delViolations i = [] := by
      simp [Productos.delViolations, chainIdPos_of_pos _ _ h]
    cases n <;> simp [Productos.del, hv]

/-- C4 witness: updating id `"3"` with one present field answers 404 when
zero rows are affected and 200 `{ok: true, id: 3}` when one row is;
deleting id `"3"` answers 404 on zero affected rows and 200 `{ok: true}`
on one. -/
theorem claim_C4_witness :
    ((Usuarios.put "3" ⟨some (.vStr "Ana"), none, none⟩ (.ok 0)).2 =
       ⟨404, .errMsg "Usuario no encontrado"⟩) ∧
    ((Usuarios.put "3" ⟨some (.vStr "Ana"), none, none⟩ (.ok 1)).2 = ⟨200, .okId 3⟩) ∧
    ((Productos.del "3" (.ok 0)).2 = ⟨404, .errMsg "Producto no encontrado"⟩) ∧
    ((Productos.del "3" (.ok 1)).2 = ⟨200, .okTrue⟩) := by
  refine ⟨?_, ?_, ?_, ?_⟩
  · exact (claim_C4_affected_rows.1 "3" ⟨some (.vStr "Ana"), none, none⟩ 0
      ⟨"UPDATE usuarios SET nombre = ? WHERE id = ?", [.vStr "Ana", .vNum 3]⟩
      (by decide)).trans (by decide)
  · exact (claim_C4_affected_rows.1 "3" ⟨some (.vStr "Ana"), none, none⟩ 1
      ⟨"UPDATE usuarios SET nombre = ? WHERE id = ?", [.vStr "Ana", .vNum 3]⟩
      (by decide)).trans (by decide)
  · exact ((claim_C4_affected_rows.2.2.2 "3" 0 (by decide)).trans (by decide))
  · exact ((claim_C4_affected_rows.2.2.2 "3" 1 (by decide)).trans (by decide))

/-- C3: an update statement handed to the gateway carries a field clause
exactly for the body-present fields (presence, not truthiness), and an
update with a valid id and zero present fields is answered HTTP 400
`{error: "No hay campos para actualizar"}` with no query issued — on both
resources. -/
theorem claim_C3_update_field_presence :
    (∀ i b db q, (Usuarios.put i b db).1 = some q →
       q.sql = Usuarios.updateSql (Usuarios.updateFields b) ∧
       (("nombre = ?" ∈ Usuarios.updateFields b) ↔ b.nombre.isSome = true) ∧
       (("apellido = ?" ∈ Usuarios.updateFields b) ↔ b.apellido.isSome = true) ∧
       (("correo = ?" ∈ Usuarios.updateFields b) ↔ b.correo.isSome = true)) ∧
    (∀ i db, strIsPosInt i = true →
       Usuarios.put i ⟨none, none, none⟩ db =
         (none, ⟨400, .errMsg "No hay campos para actualizar"⟩)) ∧
    (∀ i b db q, (Productos.put i b db).1 = some q →
       q.sql = Productos.updateSql (Productos.updateFields b) ∧
       (("nombre = ?" ∈ Productos.updateFields b) ↔ b.nombre.isSome = true) ∧
       (("descripcion = ?" ∈ Productos.updateFields b) ↔ b.descripcion.isSome = true) ∧
       (("precio = ?" ∈ Productos.updateFields b) ↔ b.precio.isSome = true)) ∧
    (∀ i db, strIsPosInt i = true →
       Productos.put i ⟨none, none, none⟩ db =
         (none, ⟨400, .errMsg "No hay campos para actualizar"⟩)) := by
  refine ⟨?_, ?_, ?_, ?_⟩
  · intro i b db q h
    obtain ⟨-, -, hq⟩ := usuarios_put_issued_cases i b db q h
    subst hq
    exact ⟨by simp [usuarios_updateFields_sanitize], usuarios_mem_updateFields b⟩
  · intro i db h
    have hv : Usuarios.putViolations i ⟨none, none, none⟩ = [] := by
      simp [Usuarios.putViolations, chainIdPos_of_pos _ _ h, chainOptStrMin2, chainOptEmail]
    simp [Usuarios.put, hv, Usuarios.updateFields, Usuarios.sanitizePut, sanStrTrim, sanEmail]
  · intro i b db q h
    obtain ⟨-, -, hq⟩ := productos_put_issued_cases i b db q h
    subst hq
    exact ⟨by simp [productos_updateFields_sanitize], productos_mem_updateFields b⟩
  · intro i db h
    have hv : Productos.putViolations i ⟨none, none, none⟩ = [] := by
      simp [Productos.putViolations, chainIdPos_of_pos _ _ h, chainOptStrMin2, chainOptStr,
        chainOptFloatMin0]
    simp [Productos.put, hv, Productos.updateFields, Productos.sanitizePut, sanStrTrim]

/-- C3 witness: a product update supplying `descripcion` as the empty
string and `precio` as `0` (both falsy in JavaScript) still carries both
clauses; a user update with valid id `"7"` and an empty body is answered
400 `{error: "No hay campos para actualizar"}` without a query. -/
theorem claim_C3_witness :
    ("descripcion = ?" ∈ Productos.updateFields ⟨none, some (.vStr ""), some (.vNum 0)⟩) ∧
    ("precio = ?" ∈ Productos.updateFields ⟨none, some (.vStr ""), some (.vNum 0)⟩) ∧
    (Usuarios.put "7" ⟨none, none, none⟩ (.ok 1) =
      (none, ⟨400, .errMsg "No hay campos para actualizar"⟩)) := by
  refine ⟨?_, ?_, ?_⟩
  · exact (claim_C3_update_field_presence.2.2.1 "5" ⟨none, some (.vStr ""), some (.vNum 0)⟩
      (.ok 1) ⟨"UPDATE productos SET descripcion = ?, precio = ? WHERE id = ?",
               [.vStr "", .vNum 0, .vNum 5]⟩ (by decide)).2.2.1.mpr (by decide)
  · exact (claim_C3_update_field_presence.2.2.1 "5" ⟨none, some (.vStr ""), some (.vNum 0)⟩
      (.ok 1) ⟨"UPDATE productos SET descripcion = ?, precio = ? WHERE id = ?",
               [.vStr "", .vNum 0, .vNum 5]⟩ (by decide)).2.2.2.mpr (by decide)
  · exact claim_C3_update_field_presence.2.1 "7" (.ok 1) (by decide)

/-- C7: a create with valid input whose INSERT succeeds is answered HTTP
201 with the gateway-generated id and exactly the submitted field values
after sanitization (echoed, not re-read); on products, absent optional
fields take the defaults `descripcion = null` and `precio = 0.0`; a
submitted user email is echoed normalized (lowercased). -/
theorem claim_C7_create_echo :
    (∀ b newId, Usuarios.postViolations b = [] →
       (Usuarios.post b (.ok newId)).2 =
         ⟨201, .createdUser newId ((Usuarios.sanitizePost b).nombre.getD .vNull)
               ((Usuarios.sanitizePost b).apellido.getD .vNull)
               ((Usuarios.sanitizePost b).correo.getD .vNull)⟩) ∧
    (∀ b s, b.correo = some (.vStr s) →
       (Usuarios.sanitizePost b).correo = some (.vStr (normalizeEmail s))) ∧
    (∀ b newId, Productos.postViolations b = [] →
       (Productos.post b (.ok newId)).2 =
         ⟨201, .createdProd newId ((Productos.sanitizePost b).nombre.getD .vNull)
               ((Productos.sanitizePost b).descripcion.getD .vNull)
               ((Productos.sanitizePost b).precio.getD (.vNum 0))⟩) ∧
    (∀ b, b.descripcion = none → (Productos.sanitizePost b).descripcion.getD .vNull = .vNull) ∧
    (∀ b, b.precio = none → (Productos.sanitizePost b).precio.getD (.vNum 0) = .vNum 0) := by
  refine ⟨?_, ?_, ?_, ?_, ?_⟩
  · intro b newId h
    simp [Usuarios.post, h]
  · intro b s h
    simp [Usuarios.sanitizePost, sanEmail, h]
  · intro b newId h
    simp [Productos.post, h]
  · intro b h
    simp [Productos.sanitizePost, sanStrTrim, h]
  · intro b h
    simp [Productos.sanitizePost, h]

/-- C7 witness: `POST /usuarios {nombre: "Ana", apellido: "Li", correo:
"ANA@Example.com"}` is answered 201 echoing the normalized
`"ana@example.com"`; `POST /productos {nombre: "Mesa"}` is answered 201
with the defaults `descripcion = null` and `precio = 0.0`. -/
theorem claim_C7_witness :
    ((Usuarios.post ⟨some (.vStr "Ana"), some (.vStr "Li"), some (.vStr "ANA@Example.com")⟩
        (.ok 1)).2 =
      ⟨201, .createdUser 1 (.vStr "Ana") (.vStr "Li") (.vStr "ana@example.com")⟩) ∧
    ((Productos.post ⟨some (.vStr "Mesa"), none, none⟩ (.ok 2)).2 =
      ⟨201, .createdProd 2 (.vStr "Mesa") .vNull (.vNum 0)⟩) := by
  constructor
  · exact (claim_C7_create_echo.1 ⟨some (.vStr "Ana"), some (.vStr "Li"),
      some (.vStr "ANA@Example.com")⟩ 1 (by decide)).trans (by decide)
  · exact (claim_C7_create_echo.2.2.1 ⟨some (.vStr "Mesa"), none, none⟩ 2
      (by decide)).trans (by decide)

/-- C10: on an update whose id is valid but whose declared validation
rules fail, the response is the 400 validation payload `{errors: [...]}`,
never the 400 `{error: "No hay campos para actualizar"}` body: validation
is checked strictly before the zero-present-fields check. -/
theorem claim_C10_validation_precedes_nofields :
    (∀ i b db, strIsPosInt i = true → Usuarios.putViolations i b ≠ [] →
       (Usuarios.put i b db).2 = ⟨400, .errors (Usuarios.putViolations i b)⟩ ∧
       (Usuarios.put i b db).2.body ≠ .errMsg "No hay campos para actualizar") ∧
    (∀ i b db, strIsPosInt i = true → Productos.putViolations i b ≠ [] →
       (Productos.put i b db).2 = ⟨400, .errors (Productos.putViolations i b)⟩ ∧
       (Productos.put i b db).2.body ≠ .errMsg "No hay campos para actualizar") := by
  constructor
  · intro i b db _ h
    constructor
    · simp only [Usuarios.put]
      rw [if_neg (by simpa [List.isEmpty_iff] using h)]
    · simp only [Usuarios.put]
      rw [if_neg (by simpa [List.isEmpty_iff] using h)]
      simp
  · intro i b db _ h
    constructor
    · simp only [Productos.put]
      rw [if_neg (by simpa [List.isEmpty_iff] using h)]
    · simp only [Productos.put]
      rw [if_neg (by simpa [List.isEmpty_iff] using h)]
      simp

/-- C10 witness: `PUT /usuarios/7 {nombre: "a"}` — valid id, only present
field failing its rule — is answered with the validation payload, not the
no-fields error. -/
theorem claim_C10_witness :
    (Usuarios.put "7" ⟨some (.vStr "a"), none, none⟩ (.ok 1)).2 =
      ⟨400, .errors [⟨"nombre", "Invalid value"⟩]⟩ ∧
    (Usuarios.put "7" ⟨some (.vStr "a"), none, none⟩ (.ok 1)).2.body ≠
      .errMsg "No hay campos para actualizar" := by
  have h := claim_C10_validation_precedes_nofields.1 "7" ⟨some (.vStr "a"), none, none⟩
    (.ok 1) (by decide) (by decide)
  exact ⟨h.1.trans (by decide), h.2⟩

/-- The user builder's value list has exactly one entry per clause. -/
theorem usuarios_updateValues_length (b : UserBody) :
    (Usuarios.updateValues b).length = (Usuarios.updateFields b).length := by
  rcases b with ⟨n, a, c⟩
  cases n <;> cases a <;> cases c <;> rfl

/-- The product builder's value list has exactly one entry per clause. -/
theorem productos_updateValues_length (b : ProdBody) :
    (Productos.updateValues b).length = (Productos.updateFields b).length := by
  rcases b with ⟨n, d, p⟩
  cases n <;> cases d <;> cases p <;> rfl

/-- The second product builder's value list has exactly one entry per
clause. -/
theorem productos2_updateValues_length (b : ProdBody) :
    (Productos2.updateValues b).length = (Productos2.updateFields b).length := by
  rcases b with ⟨n, d, p⟩
  cases n <;> cases d <;> cases p <;> rfl

/-- C9: every dynamically built update statement is well-formed, on all
three builders (user router, standalone product router, second product
router): the clause list is a sublist of the declared clause order with
exactly one clause per present field; clause list and value list are the
two projections of the same declared-order field association (so the i-th
value belongs to the i-th clause); and every query actually issued has
argument-list length equal to the clause count plus one, with the id as
the last argument. -/
theorem claim_C9_builder_wellformed :
    (∀ b : UserBody,
       List.Sublist (Usuarios.updateFields b) ["nombre = ?", "apellido = ?", "correo = ?"] ∧
       List.count "nombre = ?" (Usuarios.updateFields b) = (if b.nombre.isSome then 1 else 0) ∧
       List.count "apellido = ?" (Usuarios.updateFields b) = (if b.apellido.isSome then 1 else 0) ∧
       List.count "correo = ?" (Usuarios.updateFields b) = (if b.correo.isSome then 1 else 0) ∧
       Usuarios.updateFields b =
         ([("nombre = ?", b.nombre), ("apellido = ?", b.apellido), ("correo = ?", b.correo)].filterMap
           (fun p => if p.2.isSome then some p.1 else none)) ∧
       Usuarios.updateValues b =
         ([("nombre = ?", b.nombre), ("apellido = ?", b.apellido), ("correo = ?", b.correo)].filterMap
           Prod.snd)) ∧
    (∀ i b db q, (Usuarios.put i b db).1 = some q →
       q.params.length = (Usuarios.updateFields b).length + 1 ∧
       q.params.getLast? = some (.vNum (jsNumber i))) ∧
    (∀ b : ProdBody,
       List.Sublist (Productos.updateFields b) ["nombre = ?", "descripcion = ?", "precio = ?"] ∧
       List.count "nombre = ?" (Productos.updateFields b) = (if b.nombre.isSome then 1 else 0) ∧
       List.count "descripcion = ?" (Productos.updateFields b) = (if b.descripcion.isSome then 1 else 0) ∧
       List.count "precio = ?" (Productos.updateFields b) = (if b.precio.isSome then 1 else 0) ∧
       Productos.updateFields b =
         ([("nombre = ?", b.nombre), ("descripcion = ?", b.descripcion), ("precio = ?", b.precio)].filterMap
           (fun p => if p.2.isSome then some p.1 else none)) ∧
       Productos.updateValues b =
         ([("nombre = ?", b.nombre), ("descripcion = ?", b.descripcion), ("precio = ?", b.precio)].filterMap
           Prod.snd)) ∧
    (∀ i b db q, (Productos.put i b db).1 = some q →
       q.params.length = (Productos.updateFields b).length + 1 ∧
       q.params.getLast? = some (.vNum (jsNumber i))) ∧
    (∀ i b db q, (Productos2.put i b db).1 = some q →
       q.params.length = (Productos2.updateFields b).length + 1 ∧
       q.params.getLast? = some (.vStr i)) := by
  refine ⟨?_, ?_, ?_, ?_, ?_⟩
  · intro b
    rcases b with ⟨n, a, c⟩
    cases n <;> cases a <;> cases c <;>
      exact ⟨by simp [Usuarios.updateFields],
             by simp [Usuarios.updateFields],
             by simp [Usuarios.updateFields],
             by simp [Usuarios.updateFields],
             rfl, rfl⟩
  · intro i b db q h
    obtain ⟨-, -, hq⟩ := usuarios_put_issued_cases i b db q h
    subst hq
    constructor
    · simp [usuarios_updateValues_length, usuarios_updateFields_sanitize]
    · exact List.getLast?_concat _
  · intro b
    rcases b with ⟨n, d, p⟩
    cases n <;> cases d <;> cases p <;>
      exact ⟨by simp [Productos.updateFields],
             by simp [Productos.updateFields],
             by simp [Productos.updateFields],
             by simp [Productos.updateFields],
             rfl, rfl⟩
  · intro i b db q h
    obtain ⟨-, -, hq⟩ := productos_put_issued_cases i b db q h
    subst hq
    constructor
    · simp [productos_updateValues_length, productos_updateFields_sanitize]
    · exact List.getLast?_concat _
  · intro i b db q h
    obtain ⟨-, -, hq⟩ := productos2_put_issued_cases i b db q h
    subst hq
    constructor
    · simp [productos2_updateValues_length, productos2_updateFields_sanitize]
    · exact List.getLast?_concat _

/-- C9 witness: the query issued for a user update supplying `nombre` and
`correo` has two clauses in declaration order, three arguments, and the id
last. -/
theorem claim_C9_witness :
    (List.Sublist (Usuarios.updateFields ⟨some (.vStr "Ana"), none, some (.vStr "a@b.c")⟩)
       ["nombre = ?", "apellido = ?", "correo = ?"]) ∧
    (([.vStr "Ana", .vStr "a@b.c", .vNum 3] : List Val).length =
       (Usuarios.updateFields ⟨some (.vStr "Ana"), none, some (.vStr "a@b.c")⟩).length + 1) ∧
    (([.vStr "Ana", .vStr "a@b.c", .vNum 3] : List Val).getLast? = some (.vNum 3)) := by
  refine ⟨(claim_C9_builder_wellformed.1 ⟨some (.vStr "Ana"), none, some (.vStr "a@b.c")⟩).1,
          ?_, ?_⟩
  · have h := (claim_C9_builder_wellformed.2.1 "3"
      ⟨some (.vStr "Ana"), none, some (.vStr "a@b.c")⟩ (.ok 1)
      ⟨"UPDATE usuarios SET nombre = ?, correo = ? WHERE id = ?",
       [.vStr "Ana", .vStr "a@b.c", .vNum 3]⟩ (by decide)).1
    exact h
  · have h := (claim_C9_builder_wellformed.2.1 "3"
      ⟨some (.vStr "Ana"), none, some (.vStr "a@b.c")⟩ (.ok 1)
      ⟨"UPDATE usuarios SET nombre = ?, correo = ? WHERE id = ?",
       [.vStr "Ana", .vStr "a@b.c", .vNum 3]⟩ (by decide)).2
    exact h.trans (by decide)

/-- With a valid id, the two product router copies collect the same
update violations (the copies' id chains differ only in message, which a
passing id never produces). -/
theorem putViolations_copies_pos (i : String) (b : ProdBody)
    (h : strIsPosInt i = true) :
    Productos2.putViolations i b = Productos.putViolations i b := by
  simp [Productos.putViolations, Productos2.putViolations, chainIdPos_of_pos _ _ h]

/-- The two copies' update builders agree on the sanitized body. -/
theorem updateFields_copies (b : ProdBody) :
    Productos2.updateFields (Productos2.sanitizePut b) =
      Productos.updateFields (Productos.sanitizePut b) := rfl

/-- The two copies' update value lists agree on the sanitized body. -/
theorem updateValues_copies (b : ProdBody) :
    Productos2.updateValues (Productos2.sanitizePut b) =
      Productos.updateValues (Productos.sanitizePut b) := rfl

/-- C8 counterexample: on `PUT /productos/0` (invalid id, empty body) the
standalone copy answers 400 with message `"id inválido"` while the
appended copy answers 400 with the library default `"Invalid value"`, so
the two copies do not produce the same response body for every request. -/
theorem claim_C8_counterexample :
    ¬ ((Productos.put "0" ⟨none, none, none⟩ (.ok 1)).2 =
       (Productos2.put "0" ⟨none, none, none⟩ (.ok 1)).2) := by decide

/-- C8 (amended): the two product router copies always agree on the HTTP
status code, and agree on the full response body for every list,
get-by-id, create and delete request and for every update request whose
id parameter is valid; only an update with an invalid id produces
different 400 bodies (different validation message texts). -/
theorem claim_C8_amended_copies_agree :
    (∀ db, (Productos.getAll db).2 = (Productos2.getAll db).2) ∧
    (∀ i db, (Productos.getById i db).2 = (Productos2.getById i db).2) ∧
    (∀ b db, (Productos.post b db).2 = (Productos2.post b db).2) ∧
    (∀ i db, (Productos.del i db).2 = (Productos2.del i db).2) ∧
    (∀ i b db, (Productos.put i b db).2.status = (Productos2.put i b db).2.status) ∧
    (∀ i b db, strIsPosInt i = true →
       (Productos.put i b db).2 = (Productos2.put i b db).2) := by
  have hbody : ∀ i b db, strIsPosInt i = true →
      (Productos.put i b db).2 = (Productos2.put i b db).2 := by
    intro i b db h
    have hv := putViolations_copies_pos i b h
    simp only [Productos.put, Productos2.put, hv, updateFields_copies, updateValues_copies]
    cases hc : (Productos.putViolations i b).isEmpty
    · simp [hc]
    · cases hf : (Productos.updateFields (Productos.sanitizePut b)).isEmpty <;> simp [hc, hf]
  refine ⟨?_, ?_, ?_, ?_, ?_, hbody⟩
  · intro db; rfl
  · intro i db
    simp only [Productos.getById, Productos2.getById, Productos.getByIdViolations,
      Productos2.getByIdViolations]
    cases hc : (chainIdPos "id inválido" i).toList.isEmpty <;> simp [hc]
  · intro b db; rfl
  · intro i db
    simp only [Productos.del, Productos2.del, Productos.delViolations,
      Productos2.delViolations]
    cases hc : (chainIdPos "id inválido" i).toList.isEmpty <;> simp [hc]
  · intro i b db
    by_cases h : strIsPosInt i = true
    · rw [hbody i b db h]
    · have h' : strIsPosInt i = false := by simpa using h
      have hv1 : Productos.putViolations i b ≠ [] := by
        simp [Productos.putViolations, chainIdPos_of_neg _ _ h']
      have hv2 : Productos2.putViolations i b ≠ [] := by
        simp [Productos2.putViolations, chainIdPos_of_neg _ _ h']
      simp only [Productos.put, Productos2.put]
      rw [if_neg (by simpa [List.isEmpty_iff] using hv1),
          if_neg (by simpa [List.isEmpty_iff] using hv2)]

/-- C8 witness: on the valid-id update `PUT /productos/1 {nombre: "ab"}`
both copies return the identical response. -/
theorem claim_C8_witness :
    (Productos.put "1" ⟨some (.vStr "ab"), none, none⟩ (.ok 1)).2 =
      (Productos2.put "1" ⟨some (.vStr "ab"), none, none⟩ (.ok 1)).2 :=
  claim_C8_amended_copies_agree.2.2.2.2.2 "1" ⟨some (.vStr "ab"), none, none⟩
    (.ok 1) (by decide)

/-- The normalized email string a valid user create inserts. -/
def normalizedCorreo (b : UserBody) : String :=
  valAsStr ((Usuarios.sanitizePost b).correo.getD .vNull)

/-- C1: on user create and update, a gateway error with code
`ER_DUP_ENTRY` is answered HTTP 409 `{error: "El correo ya está
registrado"}` and every other gateway error HTTP 500; consequently,
against the uniqueness constraint of `init.sql`, creating two users with
the same normalized email returns 201 for the first request and 409 for
the second. -/
theorem claim_C1_duplicate_email_conflict :
    (∀ b e, Usuarios.postViolations b = [] → e.code = some dupKeyCode →
       (Usuarios.post b (.error e)).2 = ⟨409, .errMsg "El correo ya está registrado"⟩) ∧
    (∀ b e, Usuarios.postViolations b = [] → e.code ≠ some dupKeyCode →
       (Usuarios.post b (.error e)).2 = ⟨500, .errMsg "Error al crear usuario"⟩) ∧
    (∀ i b e q, (Usuarios.put i b (.error e)).1 = some q → e.code = some dupKeyCode →
       (Usuarios.put i b (.error e)).2 = ⟨409, .errMsg "El correo ya está registrado"⟩) ∧
    (∀ i b e q, (Usuarios.put i b (.error e)).1 = some q → e.code ≠ some dupKeyCode →
       (Usuarios.put i b (.error e)).2 = ⟨500, .errMsg "Error al actualizar usuario"⟩) ∧
    (∀ s b1 b2 now1 now2,
       Usuarios.postViolations b1 = [] → Usuarios.postViolations b2 = [] →
       (Usuarios.sanitizePost b1).correo = (Usuarios.sanitizePost b2).correo →
       (∀ r ∈ s.rows, r.correo ≠ normalizedCorreo b1) →
       (runPostUsuario s b1 now1).1.status = 201 ∧
       (runPostUsuario (runPostUsuario s b1 now1).2 b2 now2).1 =
         ⟨409, .errMsg "El correo ya está registrado"⟩) := by
  refine ⟨?_, ?_, ?_, ?_, ?_⟩
  · intro b e h hc
    simp [Usuarios.post, h, hc]
  · intro b e h hc
    simp [Usuarios.post, h, hc]
  · intro i b e q h hc
    obtain ⟨h1, h2, -⟩ := usuarios_put_issued_cases i b (.error e) q h
    simp only [Usuarios.put]
    rw [if_pos (by simp [h1])]
    rw [if_neg (by simpa [List.isEmpty_iff] using h2)]
    simp [hc]
  · intro i b e q h hc
    obtain ⟨h1, h2, -⟩ := usuarios_put_issued_cases i b (.error e) q h
    simp only [Usuarios.put]
    rw [if_pos (by simp [h1])]
    rw [if_neg (by simpa [List.isEmpty_iff] using h2)]
    simp [hc]
  · intro s b1 b2 now1 now2 h1 h2 hcor hfresh
    have hany1 : (s.rows.any fun r => r.correo = normalizedCorreo b1) = false := by
      simp only [List.any_eq_false, decide_eq_true_eq]
      exact hfresh
    have hins1 : insertUsuarioDb s
        (valAsStr ((Usuarios.sanitizePost b1).nombre.getD .vNull))
        (valAsStr ((Usuarios.sanitizePost b1).apellido.getD .vNull))
        (normalizedCorreo b1) now1 =
        .ok (s.nextId,
             ⟨s.rows ++ [⟨s.nextId,
                valAsStr ((Usuarios.sanitizePost b1).nombre.getD .vNull),
                valAsStr ((Usuarios.sanitizePost b1).apellido.getD .vNull),
                normalizedCorreo b1, now1⟩], s.nextId + 1⟩) := by
      simp [insertUsuarioDb, hany1]
    have hrun1 : runPostUsuario s b1 now1 =
        ((Usuarios.post b1 (.ok s.nextId)).2,
         ⟨s.rows ++ [⟨s.nextId,
            valAsStr ((Usuarios.sanitizePost b1).nombre.getD .vNull),
            valAsStr ((Usuarios.sanitizePost b1).apellido.getD .vNull),
            normalizedCorreo b1, now1⟩], s.nextId + 1⟩) := by
      simp only [runPostUsuario, h1, List.isEmpty_nil, if_pos]
      rw [show valAsStr ((Usuarios.sanitizePost b1).correo.getD .vNull) =
            normalizedCorreo b1 from rfl, hins1]
    constructor
    · rw [hrun1]
      simp [Usuarios.post, h1]
    · rw [hrun1]
      have hany2 : (((s.rows ++ [(⟨s.nextId,
            valAsStr ((Usuarios.sanitizePost b1).nombre.getD .vNull),
            valAsStr ((Usuarios.sanitizePost b1).apellido.getD .vNull),
            normalizedCorreo b1, now1⟩ : UserRow)]).any
              fun r => r.correo = normalizedCorreo b2)) = true := by
        have hcc : normalizedCorreo b2 = normalizedCorreo b1 := by
          simp [normalizedCorreo, ← hcor]
        simp [List.any_append, hcc]
      have hins2 : insertUsuarioDb
          ⟨s.rows ++ [⟨s.nextId,
             valAsStr ((Usuarios.sanitizePost b1).nombre.getD .vNull),
             valAsStr ((Usuarios.sanitizePost b1).apellido.getD .vNull),
             normalizedCorreo b1, now1⟩], s.nextId + 1⟩
          (valAsStr ((Usuarios.sanitizePost b2).nombre.getD .vNull))
          (valAsStr ((Usuarios.sanitizePost b2).apellido.getD .vNull))
          (normalizedCorreo b2) now2 = .error ⟨some dupKeyCode⟩ := by
        simp only [insertUsuarioDb]
        rw [if_pos hany2]
      simp only [runPostUsuario, h2, List.isEmpty_nil, if_pos]
      rw [show valAsStr ((Usuarios.sanitizePost b2).correo.getD .vNull) =
            normalizedCorreo b2 from rfl, hins2]
      simp [Usuarios.post, h2, dupKeyCode]

/-- C1 witness: with an empty table, `POST /usuarios` for Ana with correo
`"ANA@Example.com"` is answered 201, and a second create for Bob with the
same email differently cased, `"ana@EXAMPLE.com"`, is answered 409; a
non-duplicate gateway error on a valid create is answered 500. -/
theorem claim_C1_witness :
    ((runPostUsuario ⟨[], 1⟩
        ⟨some (.vStr "Ana"), some (.vStr "Li"), some (.vStr "ANA@Example.com")⟩ 0).1.status
      = 201) ∧
    ((runPostUsuario (runPostUsuario ⟨[], 1⟩
        ⟨some (.vStr "Ana"), some (.vStr "Li"), some (.vStr "ANA@Example.com")⟩ 0).2
        ⟨some (.vStr "Bob"), some (.vStr "Yu"), some (.vStr "ana@EXAMPLE.com")⟩ 5).1 =
      ⟨409, .errMsg "El correo ya está registrado"⟩) ∧
    ((Usuarios.post ⟨some (.vStr "Ana"), some (.vStr "Li"), some (.vStr "ANA@Example.com")⟩
        (.error ⟨some "ETIMEDOUT"⟩)).2 = ⟨500, .errMsg "Error al crear usuario"⟩) := by
  have h := claim_C1_duplicate_email_conflict.2.2.2.2 ⟨[], 1⟩
    ⟨some (.vStr "Ana"), some (.vStr "Li"), some (.vStr "ANA@Example.com")⟩
    ⟨some (.vStr "Bob"), some (.vStr "Yu"), some (.vStr "ana@EXAMPLE.com")⟩ 0 5
    (by decide) (by decide) (by decide) (by simp)
  exact ⟨h.1, h.2,
    claim_C1_duplicate_email_conflict.2.1
      ⟨some (.vStr "Ana"), some (.vStr "Li"), some (.vStr "ANA@Example.com")⟩
      ⟨some "ETIMEDOUT"⟩ (by decide) (by decide)⟩

end ProyectoApi
